import Mathlib

/-!
Verification development for the sqlx-mssql driver adapter.

We give a shallow embedding of the nested-transaction / savepoint emulation
and deferred-rollback state machine (`src/sqlx-mssql/src/transaction.rs`),
the command-execution entry points of the connection
(`src/sqlx-mssql/src/connection/executor.rs`), and the advisory-lock
protocol (`src/sqlx-mssql/src/advisory_lock.rs`).

Commands sent to the server are recorded as a trace of SQL strings.
Server/transport outcomes are modelled by an oracle: a list of
`Option DriverError`, one entry consumed per command sent (`none` =
success, `some e` = the command fails with error `e`; an exhausted
oracle means success).
-/

/-- Errors surfaced by the driver layer, following `error.rs` and the
`Error` variants used in `transaction.rs` / `advisory_lock.rs`:
`InvalidSavePointStatement`, `Protocol(String)`, and transport/tiberius
errors (modelled opaquely by a numeric code). -/
inductive DriverError where
  | invalidSavePointStatement
  | protocol (msg : String)
  | io (code : Nat)
deriving DecidableEq, Repr

/-- The per-connection mutable session state: `MssqlConnectionInner`'s
`transaction_depth: usize` and `pending_rollback: bool` fields
(`connection/mod.rs`). -/
structure Conn where
  transaction_depth : Nat
  pending_rollback : Bool
deriving DecidableEq, Repr

deriving instance DecidableEq for Except

/-- Result of running one driver operation: the returned value
(`Result<(), Error>` in the source), the session state afterwards, the
unconsumed oracle, and the trace of SQL commands sent to the server. -/
structure StepResult where
  res : Except DriverError Unit
  conn : Conn
  oracle : List (Option DriverError)
  sent : List String
deriving DecidableEq, Repr

/-- One server round-trip: consumes one oracle entry and yields the
command's outcome. -/
def sendCommand (o : List (Option DriverError)) :
    Except DriverError Unit × List (Option DriverError) :=
  match o with
  | [] => (Except.ok (), [])
  | none :: rest => (Except.ok (), rest)
  | some e :: rest => (Except.error e, rest)

/-- Embedding of `resolve_pending_rollback` (`transaction.rs:97-126`):
if `pending_rollback` is set, clear it, then issue `ROLLBACK` when the
(current) depth is 0 and `ROLLBACK TRANSACTION _sqlx_savepoint_<depth>`
otherwise, propagating any command error. -/
def resolve_pending_rollback (c : Conn) (o : List (Option DriverError)) : StepResult :=
  if c.pending_rollback then
    let c' : Conn := { c with pending_rollback := false }
    let sql : String :=
      if c'.transaction_depth = 0 then "ROLLBACK"
      else "ROLLBACK TRANSACTION _sqlx_savepoint_" ++ toString c'.transaction_depth
    let ro := sendCommand o
    { res := ro.1, conn := c', oracle := ro.2, sent := [sql] }
  else
    { res := Except.ok (), conn := c, oracle := o, sent := [] }

/-- Embedding of `MssqlConnection::run` (`connection/executor.rs:42-48`):
resolves any pending rollback first, then sends the SQL batch. All
`Executor` methods (`fetch_many`, `execute`, ...) funnel into `run`. -/
def MssqlConnection.run (c : Conn) (sql : String) (o : List (Option DriverError)) :
    StepResult :=
  let r1 := resolve_pending_rollback c o
  match r1.res with
  | Except.error e =>
      { res := Except.error e, conn := r1.conn, oracle := r1.oracle, sent := r1.sent }
  | Except.ok _ =>
      let ro := sendCommand r1.oracle
      { res := ro.1, conn := r1.conn, oracle := ro.2, sent := r1.sent ++ [sql] }

/-- The apostrophe character, used in SQL literals built by the driver. -/
def sqc : String := String.singleton (Char.ofNat 39)

/-- The single-quote doubling the source performs on the inner SQL via
`str::replace` of one quote character by two (`connection/executor.rs:384`). -/
def doubleQuotes (s : String) : String :=
  String.mk (s.data.foldr
    (fun ch acc => if ch = Char.ofNat 39 then ch :: ch :: acc else ch :: acc) [])

/-- The `sp_describe_first_result_set` batch built by `prepare_with`
(`connection/executor.rs:382-385`). -/
def describeSql (sql : String) : String :=
  "EXEC sp_describe_first_result_set @tsql = N" ++ sqc
    ++ doubleQuotes sql ++ sqc

/-- Embedding of `Executor::prepare_with` (`connection/executor.rs:372-441`):
sends the describe batch directly through `client.simple_query`, without
consulting `resolve_pending_rollback` and without touching the session
state. The prepared-statement metadata it returns is irrelevant here. -/
def MssqlConnection.prepare_with (c : Conn) (sql : String)
    (o : List (Option DriverError)) : StepResult :=
  let ro := sendCommand o
  { res := ro.1, conn := c, oracle := ro.2, sent := [describeSql sql] }

/-- Embedding of `MssqlTransactionManager::begin` (`transaction.rs:23-45`):
captures the current depth, resolves any pending rollback, selects the
statement (custom text only at depth 0, else `BEGIN TRANSACTION` /
`SAVE TRANSACTION _sqlx_savepoint_<depth>`), executes it through the
normal `run` path, and increments the depth only on success. -/
def MssqlTransactionManager.begin (c : Conn) (statement : Option String)
    (o : List (Option DriverError)) : StepResult :=
  let depth := c.transaction_depth
  let r1 := resolve_pending_rollback c o
  match r1.res with
  | Except.error e =>
      { res := Except.error e, conn := r1.conn, oracle := r1.oracle, sent := r1.sent }
  | Except.ok _ =>
      let stmtChoice : Except DriverError String :=
        match statement with
        | some s =>
            if 0 < depth then Except.error DriverError.invalidSavePointStatement
            else Except.ok s
        | none =>
            Except.ok (if depth = 0 then "BEGIN TRANSACTION"
              else "SAVE TRANSACTION _sqlx_savepoint_" ++ toString depth)
      match stmtChoice with
      | Except.error e =>
          { res := Except.error e, conn := r1.conn, oracle := r1.oracle, sent := r1.sent }
      | Except.ok stmt =>
          let r2 := MssqlConnection.run r1.conn stmt r1.oracle
          match r2.res with
          | Except.error e =>
              { res := Except.error e, conn := r2.conn, oracle := r2.oracle,
                sent := r1.sent ++ r2.sent }
          | Except.ok _ =>
              { res := Except.ok (),
                conn := { r2.conn with
                  transaction_depth := r2.conn.transaction_depth + 1 },
                oracle := r2.oracle, sent := r1.sent ++ r2.sent }

/-- Embedding of `MssqlTransactionManager::commit` (`transaction.rs:47-60`):
depth 0 is a no-op; depth 1 executes `COMMIT` (through `run`); depth > 1
sends nothing; the depth is decremented only after the (possibly absent)
command succeeds. -/
def MssqlTransactionManager.commit (c : Conn) (o : List (Option DriverError)) :
    StepResult :=
  let depth := c.transaction_depth
  if 0 < depth then
    if depth = 1 then
      let r := MssqlConnection.run c "COMMIT" o
      match r.res with
      | Except.error e =>
          { res := Except.error e, conn := r.conn, oracle := r.oracle, sent := r.sent }
      | Except.ok _ =>
          { res := Except.ok (), conn := { r.conn with transaction_depth := depth - 1 },
            oracle := r.oracle, sent := r.sent }
    else
      { res := Except.ok (), conn := { c with transaction_depth := depth - 1 },
        oracle := o, sent := [] }
  else
    { res := Except.ok (), conn := c, oracle := o, sent := [] }

/-- Embedding of `MssqlTransactionManager::rollback` (`transaction.rs:62-79`):
depth 0 is a no-op; depth 1 executes `ROLLBACK`; depth > 1 executes
`ROLLBACK TRANSACTION _sqlx_savepoint_<depth-1>`; the depth is
decremented only after the command succeeds. -/
def MssqlTransactionManager.rollback (c : Conn) (o : List (Option DriverError)) :
    StepResult :=
  let depth := c.transaction_depth
  if 0 < depth then
    let sql : String :=
      if depth = 1 then "ROLLBACK"
      else "ROLLBACK TRANSACTION _sqlx_savepoint_" ++ toString (depth - 1)
    let r := MssqlConnection.run c sql o
    match r.res with
    | Except.error e =>
        { res := Except.error e, conn := r.conn, oracle := r.oracle, sent := r.sent }
    | Except.ok _ =>
        { res := Except.ok (), conn := { r.conn with transaction_depth := depth - 1 },
          oracle := r.oracle, sent := r.sent }
  else
    { res := Except.ok (), conn := c, oracle := o, sent := [] }

/-- Embedding of `MssqlTransactionManager::start_rollback`
(`transaction.rs:81-89`): synchronous, issues no command; at depth > 0
it sets the pending flag and eagerly decrements the depth. -/
def MssqlTransactionManager.start_rollback (c : Conn) : Conn :=
  if 0 < c.transaction_depth then
    { c with pending_rollback := true, transaction_depth := c.transaction_depth - 1 }
  else c

/-- Embedding of `MssqlTransactionManager::get_transaction_depth`
(`transaction.rs:91-93`). -/
def MssqlTransactionManager.get_transaction_depth (c : Conn) : Nat :=
  c.transaction_depth

/-- Sequence two driver operations, stopping at the first error and
concatenating the command traces (callers propagate errors with `?`). -/
def StepResult.andThen (r : StepResult) (f : Conn → List (Option DriverError) → StepResult) :
    StepResult :=
  match r.res with
  | Except.error _ => r
  | Except.ok _ =>
      let r2 := f r.conn r.oracle
      { res := r2.res, conn := r2.conn, oracle := r2.oracle, sent := r.sent ++ r2.sent }

/-- Run the same driver operation `n` times in sequence. -/
def repeatOp (f : Conn → List (Option DriverError) → StepResult) :
    Nat → Conn → List (Option DriverError) → StepResult
  | 0, c, o => { res := Except.ok (), conn := c, oracle := o, sent := [] }
  | Nat.succ n, c, o => (f c o).andThen (repeatOp f n)

/-- Iterate `start_rollback` (abandoning `n` transaction handles in
succession, with no intervening command). -/
def startRollbackN : Nat → Conn → Conn
  | 0, c => c
  | Nat.succ n, c => startRollbackN n (MssqlTransactionManager.start_rollback c)

/-- The `@LockMode` values of `MssqlAdvisoryLockMode` (`advisory_lock.rs:11-22`). -/
inductive MssqlAdvisoryLockMode where
  | Shared
  | Update
  | Exclusive
deriving DecidableEq, Repr

/-- Embedding of `MssqlAdvisoryLockMode::as_str` (`advisory_lock.rs:24-32`). -/
def MssqlAdvisoryLockMode.as_str : MssqlAdvisoryLockMode → String
  | MssqlAdvisoryLockMode.Shared => "Shared"
  | MssqlAdvisoryLockMode.Update => "Update"
  | MssqlAdvisoryLockMode.Exclusive => "Exclusive"

/-- A SQL batch as handed to the client: the SQL text plus the values
bound as query parameters (`@p1`, ...). -/
structure SqlBatch where
  sql : String
  params : List String
deriving DecidableEq, Repr

/-- The fixed text of the acquire batch before the interpolated mode name
(`advisory_lock.rs:142-147`). -/
def acquireSqlFront : String :=
  "DECLARE @r INT; EXEC @r = sp_getapplock @Resource = @p1, @LockMode = " ++ sqc

/-- The fixed text of the acquire batch after the interpolated mode name,
for the infinite wait timeout used by `acquire`. -/
def acquireSqlBack : String :=
  sqc ++ ", @LockOwner = " ++ sqc ++ "Session" ++ sqc
    ++ ", @LockTimeout = -1; SELECT @r;"

/-- The fixed text of the try-acquire batch after the interpolated mode
name, for the zero wait timeout used by `try_acquire`
(`advisory_lock.rs:171-176`). -/
def tryAcquireSqlBack : String :=
  sqc ++ ", @LockOwner = " ++ sqc ++ "Session" ++ sqc
    ++ ", @LockTimeout = 0; SELECT @r;"

/-- The batch built by `MssqlAdvisoryLock::acquire` (`advisory_lock.rs:140-152`):
the mode name is written into the SQL text via `format!`, and the resource
name is bound as the single query parameter `@p1`. -/
def MssqlAdvisoryLock.acquire_batch (mode : MssqlAdvisoryLockMode)
    (resource : String) : SqlBatch :=
  { sql := acquireSqlFront ++ mode.as_str ++ acquireSqlBack, params := [resource] }

/-- The batch built by `MssqlAdvisoryLock::try_acquire`
(`advisory_lock.rs:169-181`): same shape, zero wait timeout. -/
def MssqlAdvisoryLock.try_acquire_batch (mode : MssqlAdvisoryLockMode)
    (resource : String) : SqlBatch :=
  { sql := acquireSqlFront ++ mode.as_str ++ tryAcquireSqlBack, params := [resource] }

/-- Embedding of `applock_error_message` (`advisory_lock.rs:362-370`). -/
def applock_error_message (status : Int) : String :=
  if status = -1 then " (timed out)"
  else if status = -2 then " (lock request cancelled)"
  else if status = -3 then " (deadlock victim)"
  else if status = -999 then " (parameter validation or other call error)"
  else ""

/-- The `Error::Protocol` message built by `acquire`/`try_acquire` for a
failing `sp_getapplock` status (`advisory_lock.rs:190-194`). -/
def getapplockFailMsg (resource : String) (status : Int) : String :=
  "sp_getapplock failed for resource " ++ sqc ++ resource ++ sqc
    ++ ": status " ++ toString status ++ applock_error_message status

/-- Embedding of the status mapping of `MssqlAdvisoryLock::try_acquire`
(`advisory_lock.rs:183-195`): the scalar returned by the batch is mapped
to `Ok(true)` / `Ok(false)` / `Err(Protocol(..))`. -/
def MssqlAdvisoryLock.try_acquire_status (resource : String) (status : Int) :
    Except DriverError Bool :=
  if 0 ≤ status then Except.ok true
  else if status = -1 then Except.ok false
  else Except.error (DriverError.protocol (getapplockFailMsg resource status))

/-- The whole nested begin/commit scenario of C1: `N` `begin` calls (no
explicit statement) from a fresh session, then `N` `commit` calls, all
commands succeeding. -/
def beginCommitScenario (N : Nat) : StepResult :=
  (repeatOp (fun c o => MssqlTransactionManager.begin c none o) N ⟨0, false⟩ []).andThen
    (repeatOp MssqlTransactionManager.commit N)

theorem resolve_noop (d : Nat) (o : List (Option DriverError)) :
    resolve_pending_rollback ⟨d, false⟩ o =
      ⟨Except.ok (), ⟨d, false⟩, o, []⟩ := by
  simp [resolve_pending_rollback]

theorem resolve_flag_zero (o : List (Option DriverError)) :
    resolve_pending_rollback ⟨0, true⟩ o =
      ⟨(sendCommand o).1, ⟨0, false⟩, (sendCommand o).2, ["ROLLBACK"]⟩ := by
  simp [resolve_pending_rollback]

theorem resolve_flag_pos (d : Nat) (o : List (Option DriverError)) :
    resolve_pending_rollback ⟨d + 1, true⟩ o =
      ⟨(sendCommand o).1, ⟨d + 1, false⟩, (sendCommand o).2,
        ["ROLLBACK TRANSACTION _sqlx_savepoint_" ++ toString (d + 1)]⟩ := by
  simp [resolve_pending_rollback]

theorem run_clean (d : Nat) (sql : String) (o : List (Option DriverError)) :
    MssqlConnection.run ⟨d, false⟩ sql o =
      ⟨(sendCommand o).1, ⟨d, false⟩, (sendCommand o).2, [sql]⟩ := by
  simp [MssqlConnection.run, resolve_noop]

theorem begin_zero (o : List (Option DriverError)) :
    MssqlTransactionManager.begin ⟨0, false⟩ none (none :: o) =
      ⟨Except.ok (), ⟨1, false⟩, o, ["BEGIN TRANSACTION"]⟩ := by
  simp [MssqlTransactionManager.begin, resolve_noop, run_clean, sendCommand]

theorem begin_zero_nil :
    MssqlTransactionManager.begin ⟨0, false⟩ none [] =
      ⟨Except.ok (), ⟨1, false⟩, [], ["BEGIN TRANSACTION"]⟩ := by
  simp [MssqlTransactionManager.begin, resolve_noop, run_clean, sendCommand]

theorem begin_pos_nil (d : Nat) :
    MssqlTransactionManager.begin ⟨d + 1, false⟩ none [] =
      ⟨Except.ok (), ⟨d + 2, false⟩, [],
        ["SAVE TRANSACTION _sqlx_savepoint_" ++ toString (d + 1)]⟩ := by
  simp [MssqlTransactionManager.begin, resolve_noop, run_clean, sendCommand]

theorem commit_one_nil :
    MssqlTransactionManager.commit ⟨1, false⟩ [] =
      ⟨Except.ok (), ⟨0, false⟩, [], ["COMMIT"]⟩ := by
  simp [MssqlTransactionManager.commit, run_clean, sendCommand]

theorem commit_deep (d : Nat) (o : List (Option DriverError)) :
    MssqlTransactionManager.commit ⟨d + 2, false⟩ o =
      ⟨Except.ok (), ⟨d + 1, false⟩, o, []⟩ := by
  simp [MssqlTransactionManager.commit]

theorem rollback_one_nil :
    MssqlTransactionManager.rollback ⟨1, false⟩ [] =
      ⟨Except.ok (), ⟨0, false⟩, [], ["ROLLBACK"]⟩ := by
  simp [MssqlTransactionManager.rollback, run_clean, sendCommand]

theorem rollback_deep_nil (d : Nat) :
    MssqlTransactionManager.rollback ⟨d + 2, false⟩ [] =
      ⟨Except.ok (), ⟨d + 1, false⟩, [],
        ["ROLLBACK TRANSACTION _sqlx_savepoint_" ++ toString (d + 1)]⟩ := by
  simp [MssqlTransactionManager.rollback, run_clean, sendCommand]

theorem start_rollback_pos (d : Nat) (b : Bool) :
    MssqlTransactionManager.start_rollback ⟨d + 1, b⟩ = ⟨d, true⟩ := by
  simp [MssqlTransactionManager.start_rollback]

theorem save_cmd_ne_commit (s : String) :
    "SAVE TRANSACTION _sqlx_savepoint_" ++ s ≠ "COMMIT" := by
  intro h
  have h2 := congrArg String.length h
  have e1 : ("SAVE TRANSACTION _sqlx_savepoint_" : String).length = 33 := rfl
  have e2 : ("COMMIT" : String).length = 6 := rfl
  rw [String.length_append, e1, e2] at h2
  omega

theorem repeat_begin_pos (k : Nat) : ∀ d : Nat,
    repeatOp (fun c o => MssqlTransactionManager.begin c none o) k ⟨d + 1, false⟩ [] =
      ⟨Except.ok (), ⟨d + 1 + k, false⟩, [],
        (List.range k).map
          (fun i => "SAVE TRANSACTION _sqlx_savepoint_" ++ toString (d + 1 + i))⟩ := by
  induction k with
  | zero =>
      intro d
      simp [repeatOp]
  | succ k ih =>
      intro d
      rw [repeatOp, begin_pos_nil d, StepResult.andThen]
      simp only [ih (d + 1)]
      rw [List.range_succ_eq_map]
      simp [List.map_map, Function.comp, StepResult.mk.injEq, Conn.mk.injEq]
      refine ⟨by omega, ?_⟩
      intro a _
      have harith : d + 1 + 1 + a = d + 1 + (a + 1) := by omega
      rw [harith]

theorem repeat_commit_down (k : Nat) :
    repeatOp MssqlTransactionManager.commit (k + 1) ⟨k + 1, false⟩ [] =
      ⟨Except.ok (), ⟨0, false⟩, [], ["COMMIT"]⟩ := by
  induction k with
  | zero =>
      rw [repeatOp, commit_one_nil, StepResult.andThen]
      simp [repeatOp]
  | succ k ih =>
      rw [repeatOp, commit_deep k [], StepResult.andThen]
      simp only [ih]
      simp

theorem startRollbackN_pos (k : Nat) : ∀ (d : Nat) (b : Bool),
    startRollbackN (k + 1) ⟨d + (k + 1), b⟩ = ⟨d, true⟩ := by
  induction k with
  | zero =>
      intro d b
      rw [startRollbackN, start_rollback_pos]
      rfl
  | succ k ih =>
      intro d b
      rw [startRollbackN]
      have harith : d + (k + 1 + 1) = (d + (k + 1)) + 1 := by omega
      rw [harith, start_rollback_pos]
      exact ih d true

theorem begin_phase_trace (M : Nat) :
    repeatOp (fun c o => MssqlTransactionManager.begin c none o) (M + 1) ⟨0, false⟩ [] =
      ⟨Except.ok (), ⟨M + 1, false⟩, [],
        "BEGIN TRANSACTION" ::
          (List.range M).map
            (fun i => "SAVE TRANSACTION _sqlx_savepoint_" ++ toString (i + 1))⟩ := by
  rw [repeatOp, begin_zero_nil, StepResult.andThen]
  simp only [repeat_begin_pos M 0]
  simp [StepResult.mk.injEq, Conn.mk.injEq]
  refine ⟨by omega, ?_⟩
  intro a _
  have harith : 1 + a = a + 1 := by omega
  rw [harith]

theorem commit_count_one (M : Nat) :
    (("BEGIN TRANSACTION" ::
        ((List.range M).map
            (fun i => "SAVE TRANSACTION _sqlx_savepoint_" ++ toString (i + 1))
          ++ ["COMMIT"])) : List String).count "COMMIT" = 1 := by
  rw [List.count_cons, List.count_append]
  have hz : ((List.range M).map
      (fun i => "SAVE TRANSACTION _sqlx_savepoint_" ++ toString (i + 1))).count
        "COMMIT" = 0 := by
    rw [List.count_eq_zero]
    intro hmem
    rw [List.mem_map] at hmem
    obtain ⟨i, -, hi⟩ := hmem
    exact save_cmd_ne_commit _ hi
  rw [hz]
  decide

/-- C1: for every N ≥ 1 (written N = M + 1), a sequence of N `begin` calls
with no explicit statement from a fresh session followed by N `commit`
calls succeeds, returns `transaction_depth` to 0, and sends exactly the
trace `BEGIN TRANSACTION`, then `SAVE TRANSACTION _sqlx_savepoint_i` for
i = 1..N-1 (so no savepoint for depth 0's own begin), then a single real
`COMMIT` at the end (the commit taking depth 1 to 0) — the N-1 inner
commits send nothing, and `COMMIT` occurs exactly once in the trace. -/
theorem claim_C1 (M : Nat) :
    (beginCommitScenario (M + 1)).res = Except.ok () ∧
    (beginCommitScenario (M + 1)).conn.transaction_depth = 0 ∧
    (beginCommitScenario (M + 1)).sent =
      "BEGIN TRANSACTION" ::
        ((List.range M).map
            (fun i => "SAVE TRANSACTION _sqlx_savepoint_" ++ toString (i + 1))
          ++ ["COMMIT"]) ∧
    (beginCommitScenario (M + 1)).sent.count "COMMIT" = 1 := by
  have hfull : beginCommitScenario (M + 1) =
      ⟨Except.ok (), ⟨0, false⟩, [],
        "BEGIN TRANSACTION" ::
          ((List.range M).map
              (fun i => "SAVE TRANSACTION _sqlx_savepoint_" ++ toString (i + 1))
            ++ ["COMMIT"])⟩ := by
    rw [beginCommitScenario, begin_phase_trace, StepResult.andThen]
    simp only [repeat_commit_down M]
    simp
  rw [hfull]
  exact ⟨rfl, rfl, rfl, commit_count_one M⟩

/-- C2 counterexample: abandoning two handles in succession from depth 3
makes the later `start_rollback` change the effective rollback target.
After a single abandonment at depth 3 the resolution would send
`ROLLBACK TRANSACTION _sqlx_savepoint_2` (the target corresponding to the
flag being first set at depth 3), but after a second abandonment the
resolution sends `ROLLBACK TRANSACTION _sqlx_savepoint_1` — the target
followed the later decrement, contradicting the claim that later
`start_rollback` calls do not change the recorded rollback target. -/
theorem claim_C2_counterexample :
    (resolve_pending_rollback
        (MssqlTransactionManager.start_rollback
          (MssqlTransactionManager.start_rollback ⟨3, false⟩)) []).sent =
      ["ROLLBACK TRANSACTION _sqlx_savepoint_1"] ∧
    (resolve_pending_rollback
        (MssqlTransactionManager.start_rollback ⟨3, false⟩) []).sent =
      ["ROLLBACK TRANSACTION _sqlx_savepoint_2"] := by decide

/-- C2 amended: if two or more transaction handles (n + 2 of them) are
abandoned in succession with no intervening command, at the next
resolution exactly one rollback command is issued, and its target is
computed from the `transaction_depth` current at resolution time (after
all the decrements) — so the later `start_rollback` calls do shift the
rollback target outward by one level each: from depth d + n + 3, the
single command is `ROLLBACK TRANSACTION _sqlx_savepoint_<d+1>`, and when
the abandonments reach depth 0 it is a plain `ROLLBACK`. -/
theorem claim_C2_amended (d n : Nat) :
    startRollbackN (n + 2) ⟨d + n + 3, false⟩ = ⟨d + 1, true⟩ ∧
    (resolve_pending_rollback (startRollbackN (n + 2) ⟨d + n + 3, false⟩) []).sent =
      ["ROLLBACK TRANSACTION _sqlx_savepoint_" ++ toString (d + 1)] ∧
    (resolve_pending_rollback
        (startRollbackN (n + 2) ⟨d + n + 3, false⟩) []).conn.pending_rollback = false ∧
    startRollbackN (n + 2) ⟨n + 2, false⟩ = ⟨0, true⟩ ∧
    (resolve_pending_rollback (startRollbackN (n + 2) ⟨n + 2, false⟩) []).sent =
      ["ROLLBACK"] := by
  have h1 : startRollbackN (n + 2) ⟨d + n + 3, false⟩ = ⟨d + 1, true⟩ := by
    have harith : d + n + 3 = (d + 1) + (n + 1 + 1) := by omega
    rw [harith]
    exact startRollbackN_pos (n + 1) (d + 1) false
  have h2 : startRollbackN (n + 2) ⟨n + 2, false⟩ = ⟨0, true⟩ := by
    have hgen := startRollbackN_pos (n + 1) 0 false
    have harith : 0 + (n + 1 + 1) = n + 2 := by omega
    rw [harith] at hgen
    exact hgen
  refine ⟨h1, ?_, ?_, h2, ?_⟩
  · rw [h1, resolve_flag_pos]
  · rw [h1, resolve_flag_pos]
  · rw [h2, resolve_flag_zero]

/-- C3: for every depth D ≥ 2 (written D = d + 2), `rollback` at depth D
sends `ROLLBACK TRANSACTION _sqlx_savepoint_<D-1>` — the savepoint name
encodes D - 1, the level being returned to, not D — and decrements the
depth by 1; at depth 1 it sends a plain `ROLLBACK`. -/
theorem claim_C3 (d : Nat) :
    MssqlTransactionManager.rollback ⟨d + 2, false⟩ [] =
      ⟨Except.ok (), ⟨d + 1, false⟩, [],
        ["ROLLBACK TRANSACTION _sqlx_savepoint_" ++ toString (d + 1)]⟩ ∧
    MssqlTransactionManager.rollback ⟨1, false⟩ [] =
      ⟨Except.ok (), ⟨0, false⟩, [], ["ROLLBACK"]⟩ :=
  ⟨rollback_deep_nil d, rollback_one_nil⟩

/-- C4: `start_rollback` at depth d + 1 > 0 synchronously sets
`pending_rollback` and decrements the depth — its embedding has type
`Conn → Conn`, sending no command, mirroring the synchronous Drop-context
source — so `get_transaction_depth` reads the decremented value
immediately, and the later resolution never changes the depth: whenever
`pending_rollback` is true the depth already reflects the state after the
implied rollback. -/
theorem claim_C4 (d : Nat) (b : Bool) (c : Conn) (o : List (Option DriverError)) :
    MssqlTransactionManager.start_rollback ⟨d + 1, b⟩ = ⟨d, true⟩ ∧
    MssqlTransactionManager.get_transaction_depth
        (MssqlTransactionManager.start_rollback ⟨d + 1, b⟩) = d ∧
    (resolve_pending_rollback c o).conn.transaction_depth = c.transaction_depth := by
  refine ⟨start_rollback_pos d b, ?_, ?_⟩
  · rw [start_rollback_pos]
    rfl
  · by_cases h : c.pending_rollback <;>
      simp [resolve_pending_rollback, h]

/-- C5 counterexample: with `pending_rollback` set, `prepare_with` sends
its `sp_describe_first_result_set` batch to the server without first
invoking `resolve_pending_rollback` — one SQL batch goes out while
`pending_rollback` is (and stays) true, so the resolver is not the
mandatory first step of every command execution path. -/
theorem claim_C5_counterexample :
    (MssqlConnection.prepare_with ⟨0, true⟩ "SELECT 1" []).sent =
      ["EXEC sp_describe_first_result_set @tsql = N" ++ sqc ++ "SELECT 1" ++ sqc] ∧
    (MssqlConnection.prepare_with ⟨0, true⟩ "SELECT 1" []).conn.pending_rollback
      = true ∧
    (MssqlConnection.prepare_with ⟨0, true⟩ "SELECT 1" []).sent.length = 1 := by
  refine ⟨?_, rfl, rfl⟩
  show [describeSql "SELECT 1"] = _
  rw [describeSql]
  have hq : doubleQuotes "SELECT 1" = "SELECT 1" := by decide
  rw [hq]

/-- C5 amended: the statement-execution path (`run`) and `begin` do invoke
`resolve_pending_rollback` as their mandatory first step — starting with
`pending_rollback` set, the first command either sends is the pending
rollback command, and afterwards the flag is clear — but `prepare_with`
does not: it sends its describe batch leaving `pending_rollback` set. -/
theorem run_pending (d : Nat) (sql : String) (o : List (Option DriverError)) :
    (MssqlConnection.run ⟨d, true⟩ sql o).sent.head? =
      some (if d = 0 then "ROLLBACK"
        else "ROLLBACK TRANSACTION _sqlx_savepoint_" ++ toString d) ∧
    (MssqlConnection.run ⟨d, true⟩ sql o).conn.pending_rollback = false := by
  unfold MssqlConnection.run
  cases d with
  | zero =>
      rw [resolve_flag_zero]
      cases hc : (sendCommand o).1 <;> simp [hc]
  | succ k =>
      rw [resolve_flag_pos]
      cases hc : (sendCommand o).1 <;> simp [hc]

theorem begin_pending (d : Nat) (o : List (Option DriverError)) :
    (MssqlTransactionManager.begin ⟨d, true⟩ none o).sent.head? =
      some (if d = 0 then "ROLLBACK"
        else "ROLLBACK TRANSACTION _sqlx_savepoint_" ++ toString d) ∧
    (MssqlTransactionManager.begin ⟨d, true⟩ none o).conn.pending_rollback
      = false := by
  unfold MssqlTransactionManager.begin
  cases d with
  | zero =>
      rw [resolve_flag_zero]
      cases hc : (sendCommand o).1 with
      | error e => simp [hc]
      | ok u =>
          simp only [hc, run_clean]
          cases hc2 : (sendCommand (sendCommand o).2).1 <;> simp [hc2]
  | succ k =>
      rw [resolve_flag_pos]
      cases hc : (sendCommand o).1 with
      | error e => simp [hc]
      | ok u =>
          simp only [hc, run_clean]
          cases hc2 : (sendCommand (sendCommand o).2).1 <;> simp [hc2]

theorem claim_C5_amended (d : Nat) (sql : String) (o : List (Option DriverError)) :
    (MssqlConnection.run ⟨d, true⟩ sql o).sent.head? =
      some (if d = 0 then "ROLLBACK"
        else "ROLLBACK TRANSACTION _sqlx_savepoint_" ++ toString d) ∧
    (MssqlTransactionManager.begin ⟨d, true⟩ none o).sent.head? =
      some (if d = 0 then "ROLLBACK"
        else "ROLLBACK TRANSACTION _sqlx_savepoint_" ++ toString d) ∧
    (MssqlConnection.run ⟨d, true⟩ sql o).conn.pending_rollback = false ∧
    (MssqlTransactionManager.begin ⟨d, true⟩ none o).conn.pending_rollback = false ∧
    (MssqlConnection.prepare_with ⟨d, true⟩ sql o).conn.pending_rollback = true ∧
    (MssqlConnection.prepare_with ⟨d, true⟩ sql o).sent = [describeSql sql] :=
  ⟨(run_pending d sql o).1, (begin_pending d o).1, (run_pending d sql o).2,
    (begin_pending d o).2, rfl, rfl⟩

/-- C6: `resolve_pending_rollback` is a success no-op when the flag is
clear; when set, the flag is cleared before the rollback command is
issued (the resulting state has the flag clear even when the command
fails, and a second resolution sends nothing), and a command error `e` is
returned to the caller unchanged. -/
theorem claim_C6 (d : Nat) (e : DriverError) (o o2 : List (Option DriverError)) :
    resolve_pending_rollback ⟨d, false⟩ o = ⟨Except.ok (), ⟨d, false⟩, o, []⟩ ∧
    (resolve_pending_rollback ⟨d, true⟩ (some e :: o)).res = Except.error e ∧
    (resolve_pending_rollback ⟨d, true⟩ (some e :: o)).conn.pending_rollback
      = false ∧
    (resolve_pending_rollback ⟨d, true⟩ (some e :: o)).sent.length = 1 ∧
    (resolve_pending_rollback
        (resolve_pending_rollback ⟨d, true⟩ (none :: o)).conn o2).sent = [] := by
  cases d with
  | zero =>
      simp [resolve_noop, resolve_flag_zero, sendCommand]
  | succ d =>
      simp [resolve_noop, resolve_flag_pos, sendCommand]

/-- C7 counterexample: `begin` at depth 1 sends
`SAVE TRANSACTION _sqlx_savepoint_1`, which differs from the
`SAVE TRANSACTION _savepoint_1` demanded by the claim's bit-exact wire
contract — the driver's savepoint token is `_sqlx_savepoint_<n>`, not
`_savepoint_<n>`. -/
theorem claim_C7_counterexample :
    (MssqlTransactionManager.begin ⟨1, false⟩ none []).sent =
      ["SAVE TRANSACTION _sqlx_savepoint_1"] ∧
    "SAVE TRANSACTION _sqlx_savepoint_1" ≠ "SAVE TRANSACTION _savepoint_1" := by
  decide

/-- C7 amended: the bit-exact wire contract of the nested-transaction
protocol is: depth-0 begin sends `BEGIN TRANSACTION`, begin at depth
d + 1 > 0 sends `SAVE TRANSACTION _sqlx_savepoint_<d+1>`, commit at depth
1 sends `COMMIT`, rollback at depth 1 sends `ROLLBACK`, and rollback at
depth d + 2 > 1 sends `ROLLBACK TRANSACTION _sqlx_savepoint_<d+1>` — the
savepoint token is `_sqlx_savepoint_`, not `_savepoint_`. -/
theorem claim_C7_amended (d : Nat) :
    (MssqlTransactionManager.begin ⟨0, false⟩ none []).sent =
      ["BEGIN TRANSACTION"] ∧
    (MssqlTransactionManager.begin ⟨d + 1, false⟩ none []).sent =
      ["SAVE TRANSACTION _sqlx_savepoint_" ++ toString (d + 1)] ∧
    (MssqlTransactionManager.commit ⟨1, false⟩ []).sent = ["COMMIT"] ∧
    (MssqlTransactionManager.rollback ⟨1, false⟩ []).sent = ["ROLLBACK"] ∧
    (MssqlTransactionManager.rollback ⟨d + 2, false⟩ []).sent =
      ["ROLLBACK TRANSACTION _sqlx_savepoint_" ++ toString (d + 1)] := by
  rw [begin_zero_nil, begin_pos_nil, commit_one_nil, rollback_one_nil,
    rollback_deep_nil]
  exact ⟨rfl, rfl, rfl, rfl, rfl⟩

/-- C8 counterexample: the acquire batch binds only the resource name as a
query parameter; the lock-mode name is not bound — instead the SQL text
itself changes with the mode (here `Shared` vs `Exclusive` produce
different batch texts with identical parameter lists), i.e. the mode is
interpolated into the SQL, contradicting the claim that it is passed as a
bound parameter with no mode-dependent string substitution. -/
theorem claim_C8_counterexample :
    (MssqlAdvisoryLock.acquire_batch MssqlAdvisoryLockMode.Shared "res").params
      = ["res"] ∧
    (MssqlAdvisoryLock.acquire_batch MssqlAdvisoryLockMode.Shared "res").sql ≠
      (MssqlAdvisoryLock.acquire_batch MssqlAdvisoryLockMode.Exclusive "res").sql := by
  refine ⟨rfl, ?_⟩
  rw [MssqlAdvisoryLock.acquire_batch, MssqlAdvisoryLock.acquire_batch]
  simp [acquireSqlFront, acquireSqlBack, MssqlAdvisoryLockMode.as_str, sqc]
  decide

/-- C8 amended: for every lock mode, `acquire` and `try_acquire` bind
exactly the resource name as the single query parameter, and interpolate
the textual mode name into the SQL text between fixed fragments; the
interpolated text is drawn from the closed three-element set
`Shared` / `Update` / `Exclusive` determined by the mode enum, so no
user-controlled text reaches the SQL. -/
theorem claim_C8_amended (mode : MssqlAdvisoryLockMode) (resource : String) :
    (MssqlAdvisoryLock.acquire_batch mode resource).params = [resource] ∧
    (MssqlAdvisoryLock.try_acquire_batch mode resource).params = [resource] ∧
    (MssqlAdvisoryLock.acquire_batch mode resource).sql =
      acquireSqlFront ++ mode.as_str ++ acquireSqlBack ∧
    (MssqlAdvisoryLock.try_acquire_batch mode resource).sql =
      acquireSqlFront ++ mode.as_str ++ tryAcquireSqlBack ∧
    (mode.as_str = "Shared" ∨ mode.as_str = "Update" ∨
      mode.as_str = "Exclusive") := by
  refine ⟨rfl, rfl, rfl, rfl, ?_⟩
  cases mode
  · exact Or.inl rfl
  · exact Or.inr (Or.inl rfl)
  · exact Or.inr (Or.inr rfl)

/-- C9: `try_acquire` maps the `sp_getapplock` status trichotomously —
every status ≥ 0 (any natural n) yields `Ok(true)`, status -1 yields
`Ok(false)` with no error, and every other negative status (any
-(n + 2)) yields a protocol error whose message carries the status code,
so the would-block case is distinguishable from failure by constructor
alone. -/
theorem claim_C9 (resource : String) (n : Nat) :
    MssqlAdvisoryLock.try_acquire_status resource ((n : Int)) =
      Except.ok true ∧
    MssqlAdvisoryLock.try_acquire_status resource (-1) = Except.ok false ∧
    MssqlAdvisoryLock.try_acquire_status resource (-((n : Int) + 2)) =
      Except.error (DriverError.protocol
        (getapplockFailMsg resource (-((n : Int) + 2)))) := by
  refine ⟨?_, ?_, ?_⟩
  · rw [MssqlAdvisoryLock.try_acquire_status, if_pos (by omega : (0 : Int) ≤ (n : Int))]
  · rw [MssqlAdvisoryLock.try_acquire_status, if_neg (by omega), if_pos rfl]
  · rw [MssqlAdvisoryLock.try_acquire_status, if_neg (by omega), if_neg (by omega)]

/-- C10 counterexample: calling `begin` while a rollback is pending, with
the resolution's rollback succeeding and begin's own SQL command failing,
returns the error with `transaction_depth` unchanged — but
`pending_rollback` went from true to false, so `begin` does modify
`pending_rollback`, contradicting the claim that these operations leave
it untouched. -/
theorem claim_C10_counterexample :
    (MssqlTransactionManager.begin ⟨1, true⟩ none
        [none, some (DriverError.io 7)]).res =
      Except.error (DriverError.io 7) ∧
    (MssqlTransactionManager.begin ⟨1, true⟩ none
        [none, some (DriverError.io 7)]).conn.transaction_depth = 1 ∧
    (MssqlTransactionManager.begin ⟨1, true⟩ none
        [none, some (DriverError.io 7)]).conn.pending_rollback = false := by
  decide

/-- C10 amended: if the SQL command issued by `begin`, `commit`, or
`rollback` fails, the operation returns that error with
`transaction_depth` keeping its prior value (the increment or decrement
is applied only after the command succeeds); starting from a state with
no pending rollback, `pending_rollback` is also unchanged (it can only be
cleared by the pending-rollback resolution step when it was already set
at entry, as the counterexample shows). -/
theorem claim_C10_amended (d : Nat) (e : DriverError) (o : List (Option DriverError)) :
    MssqlTransactionManager.begin ⟨d, false⟩ none (some e :: o) =
      ⟨Except.error e, ⟨d, false⟩, o,
        [if d = 0 then "BEGIN TRANSACTION"
          else "SAVE TRANSACTION _sqlx_savepoint_" ++ toString d]⟩ ∧
    MssqlTransactionManager.commit ⟨1, false⟩ (some e :: o) =
      ⟨Except.error e, ⟨1, false⟩, o, ["COMMIT"]⟩ ∧
    MssqlTransactionManager.rollback ⟨d + 1, false⟩ (some e :: o) =
      ⟨Except.error e, ⟨d + 1, false⟩, o,
        [if d = 0 then "ROLLBACK"
          else "ROLLBACK TRANSACTION _sqlx_savepoint_" ++ toString d]⟩ := by
  cases d with
  | zero =>
      simp [MssqlTransactionManager.begin, MssqlTransactionManager.commit,
        MssqlTransactionManager.rollback, resolve_noop, run_clean, sendCommand]
  | succ d =>
      simp [MssqlTransactionManager.begin, MssqlTransactionManager.commit,
        MssqlTransactionManager.rollback, resolve_noop, run_clean, sendCommand]
